import Mathlib

/-!
Shallow embedding of the cobbler item model (src/cobbler/items/__init__.py,
src/cobbler/items/item.py) and proofs about its inheritance-resolution,
serialization, tree and query-matching operations.

Python values are modelled by `PyVal`; Python attribute dictionaries and
settings objects by association lists keyed by the bare (un-prefixed)
attribute names.  Python floats carry no arithmetic in the modelled code, so
a float is represented by an opaque integer payload; only its type tag and
identity matter.  Fallible Python code (raising) is modelled with `Except`
or with a `state × Option error` pair where the partially mutated state is
observable after the raise.
-/

/-- Model of a Python value as the embedded code manipulates them: strings,
ints, floats (opaque payload, no arithmetic occurs), bools, None, lists and
(insertion-ordered) string-keyed dicts. -/
inductive PyVal where
  | str : String → PyVal
  | int : Int → PyVal
  | float : Int → PyVal
  | bool : Bool → PyVal
  | none : PyVal
  | list : List PyVal → PyVal
  | dict : List (String × PyVal) → PyVal
deriving Repr, Inhabited

/-- Python exception kinds raised by the embedded code. -/
inductive PyErr where
  | attributeError
  | typeError
  | valueError
  | keyError
deriving Repr, DecidableEq

mutual

/-- Python `==` on the modelled values.  Structural; for dicts nested inside
values it is insertion-order-sensitive where Python's is not, but no modelled
comparison reaches that corner (dict-against-dict comparison in the code
goes through `Item.__find_compare`, which walks keys itself). -/
def pyEq : PyVal → PyVal → Bool
  | .str a, .str b => a == b
  | .int a, .int b => a == b
  | .float a, .float b => a == b
  | .bool a, .bool b => a == b
  | .none, .none => true
  | .list a, .list b => pyEqList a b
  | .dict a, .dict b => pyEqPairs a b
  | _, _ => false

def pyEqList : List PyVal → List PyVal → Bool
  | [], [] => true
  | a :: as, b :: bs => pyEq a b && pyEqList as bs
  | _, _ => false

def pyEqPairs : List (String × PyVal) → List (String × PyVal) → Bool
  | [], [] => true
  | (k, v) :: as, (k2, v2) :: bs => k == k2 && pyEq v v2 && pyEqPairs as bs
  | _, _ => false

end

/-- Python `s.startswith(pre)` over the character list (Lean's byte-based
string primitives do not reduce inside the kernel). -/
def pyStartsWith (s pre : String) : Bool :=
  pre.data.isPrefixOf s.data

/-- Python `c in s` for a single character, over the character list. -/
def pyContains (s : String) (c : Char) : Bool :=
  s.data.contains c

/-- Python `s.lower()` over the character list (ASCII, as the modelled
comparisons use). -/
def pyLower (s : String) : String :=
  String.mk (s.data.map Char.toLower)

/-- The reserved inheritance token `enums.VALUE_INHERITED` (the docstrings in
src/cobbler/items/item.py name it as the string below). -/
def VALUE_INHERITED : String := "<<inherit>>"

/-- The sentinel as a value. -/
def inheritSentinel : PyVal := PyVal.str VALUE_INHERITED

/-- Python `d[k] = v` on an insertion-ordered dict: overwrite in place if the
key is present, else append. -/
def dictSet (d : List (String × PyVal)) (k : String) (v : PyVal) :
    List (String × PyVal) :=
  if (d.lookup k).isSome then
    d.map (fun kv => if kv.1 == k then (k, v) else kv)
  else d ++ [(k, v)]

/-- Python `d.update(e)`: set every key of `e`, in `e`'s order. -/
def dictUpdate (d e : List (String × PyVal)) : List (String × PyVal) :=
  e.foldl (fun acc kv => dictSet acc kv.1 kv.2) d

/-- Modelled from the spec: `cobbler.utils.dict_annihilate` is not under
src/.  Per the spec, any key of the merged mapping whose value equals a
designated removal marker is deleted entirely; the reference implementation
designates the string tilde, used here. -/
def removalMarker : PyVal := PyVal.str "~"

/-- Modelled from the spec: delete every key whose value equals the removal
marker (annihilation). -/
def dict_annihilate (d : List (String × PyVal)) : List (String × PyVal) :=
  d.filter (fun kv => !(pyEq kv.2 removalMarker))

/-- The global settings object, exposing named attributes
(`hasattr`/`getattr` become lookups). -/
structure Settings where
  attrs : List (String × PyVal)

def Settings.getattr (s : Settings) (n : String) : Option PyVal :=
  s.attrs.lookup n

/-- The parent as the resolution code sees it: the set of resolved property
values it exposes (`hasattr(parent, name)` / `getattr(parent, name)`, which
call the parent's property getters, i.e. the parent's resolved values). -/
structure ParentView where
  props : List (String × PyVal)

/-- An item as the resolution engine reads it: its own backing fields (the
underscore-prefixed attributes, keyed here by bare name), its optional
parent's exposed resolved values, and the settings object. -/
structure RItem where
  fields : List (String × PyVal)
  parent : Option ParentView
  settings : Settings

/-- The rename both `_resolve` variants start with: property names beginning
with the `proxy_url_` family share the `proxy` backing field. -/
def resolveFieldName (p : String) : String :=
  if pyStartsWith p "proxy_url_" then "proxy" else p

/-- The settings key `BaseItem._resolve` consults: `owners` maps to
`default_ownership`, everything else to the (original) property name. -/
def resolveSettingsName (p : String) : String :=
  if resolveFieldName p == "owners" then "default_ownership" else p

/-- `BaseItem._resolve` (src/cobbler/items/__init__.py lines 181-217).
If the own stored value is the sentinel it consults settings under the
settings name, then under its `default_` variant.  When neither exists the
source builds an `AttributeError` but does not raise it, so control falls
through to `return attribute_value`, returning the sentinel. -/
def BaseItem._resolve (fields : List (String × PyVal)) (settings : Settings)
    (property_name : String) : Except PyErr PyVal :=
  let attrName := resolveFieldName property_name
  let settingsName := resolveSettingsName property_name
  match fields.lookup attrName with
  | Option.none => .error .attributeError
  | some attributeValue =>
    if pyEq attributeValue inheritSentinel then
      match settings.getattr settingsName with
      | some v => .ok v
      | Option.none =>
        match settings.getattr ("default_" ++ settingsName) with
        | some v => .ok v
        | Option.none => .ok attributeValue
    else .ok attributeValue

/-- `InheritableItem._resolve` (src/cobbler/items/__init__.py lines 424-439):
if the own value is the sentinel and a parent exists exposing the (renamed)
property, return the parent's resolved value; every other path defers to
`BaseItem._resolve` with the renamed name. -/
def InheritableItem._resolve (it : RItem) (property_name : String) :
    Except PyErr PyVal :=
  let attrName := resolveFieldName property_name
  match it.fields.lookup attrName with
  | Option.none => .error .attributeError
  | some attributeValue =>
    if pyEq attributeValue inheritSentinel then
      match it.parent with
      | some p =>
        match p.props.lookup attrName with
        | some pv => .ok pv
        | Option.none => BaseItem._resolve it.fields it.settings attrName
      | Option.none => BaseItem._resolve it.fields it.settings attrName
    else BaseItem._resolve it.fields it.settings attrName

/-- `merged_dict.update(x)` demands a mapping; anything else raises (the
exception kind is approximated as TypeError; no modelled claim reaches this
branch). -/
def asDict : PyVal → Except PyErr (List (String × PyVal))
  | .dict d => .ok d
  | _ => .error .typeError

/-- `BaseItem._resolve_dict` (src/cobbler/items/__init__.py lines 251-280):
start empty, merge settings' mapping if the settings expose the property,
overlay the own stored mapping unless it is the sentinel, then annihilate. -/
def BaseItem._resolve_dict (fields : List (String × PyVal))
    (settings : Settings) (property_name : String) :
    Except PyErr (List (String × PyVal)) :=
  match fields.lookup property_name with
  | Option.none => .error .attributeError
  | some attributeValue => do
    let merged : List (String × PyVal) := []
    let merged ←
      match settings.getattr property_name with
      | some sv => do
        let d ← asDict sv
        pure (dictUpdate merged d)
      | Option.none => pure merged
    let merged ←
      if pyEq attributeValue inheritSentinel then pure merged
      else do
        let d ← asDict attributeValue
        pure (dictUpdate merged d)
    pure (dict_annihilate merged)

/-- `InheritableItem._resolve_dict` (src/cobbler/items/__init__.py lines
460-483): start empty; merge the parent's resolved mapping if a parent
exists and exposes the property, otherwise the settings' mapping if present;
overlay the own stored mapping unless it is the sentinel; annihilate. -/
def InheritableItem._resolve_dict (it : RItem) (property_name : String) :
    Except PyErr (List (String × PyVal)) :=
  match it.fields.lookup property_name with
  | Option.none => .error .attributeError
  | some attributeValue => do
    let merged : List (String × PyVal) := []
    let merged ←
      match it.parent with
      | some p =>
        match p.props.lookup property_name with
        | some pv => do
          let d ← asDict pv
          pure (dictUpdate merged d)
        | Option.none =>
          match it.settings.getattr property_name with
          | some sv => do
            let d ← asDict sv
            pure (dictUpdate merged d)
          | Option.none => pure merged
      | Option.none =>
        match it.settings.getattr property_name with
        | some sv => do
          let d ← asDict sv
          pure (dictUpdate merged d)
        | Option.none => pure merged
    let merged ←
      if pyEq attributeValue inheritSentinel then pure merged
      else do
        let d ← asDict attributeValue
        pure (dictUpdate merged d)
    pure (dict_annihilate merged)

/-- Modelled from the spec (section 4.2, resolve_mapping): start from an
empty mapping; merge in the parent's resolved mapping if one exists,
otherwise the settings' mapping if present; overlay the item's own stored
mapping only if it is not the INHERIT sentinel; finally delete every key
whose value equals the removal marker. -/
def specMappingResolution (own : PyVal)
    (parentResolved : Option (List (String × PyVal)))
    (settingsMapping : Option (List (String × PyVal))) :
    List (String × PyVal) :=
  let base :=
    match parentResolved with
    | some d => dictUpdate [] d
    | Option.none =>
      match settingsMapping with
      | some d => dictUpdate [] d
      | Option.none => []
  let overlaid :=
    match own with
    | .dict d => dictUpdate base d
    | _ => base
  dict_annihilate overlaid

/-- `InheritableItem.descendants` (src/cobbler/items/__init__.py lines
345-360), recursion made explicit.  `api` is the external lookup collaborator
mapping an item name to its children list; a failed lookup makes the source
dereference `None` and raise.  `fuel` bounds the recursion depth (the source
has no cycle protection; every recursive call decreases the fuel);
exhausting it is modelled as an error and is unreachable once the fuel
exceeds the tree's node count.  The loop body extends the
results with each kid's descendants only: the source never appends
`kid_item` itself. -/
def InheritableItem.descendantsGo (api : List (String × List String)) :
    Nat → List String → Except PyErr (List String)
  | _, [] => .ok []
  | 0, _ :: _ => .error .attributeError
  | Nat.succ f, kid :: rest =>
    match api.lookup kid with
    | Option.none => .error .attributeError
    | some kidChildren => do
      let grandkids ← InheritableItem.descendantsGo api f kidChildren
      let others ← InheritableItem.descendantsGo api f rest
      pure (grandkids ++ others)

/-- The `descendants` property of an item whose children list is `kids`. -/
def InheritableItem.descendants (api : List (String × List String))
    (fuel : Nat) (kids : List String) : Except PyErr (List String) :=
  InheritableItem.descendantsGo api fuel kids

/-- The character class of `RE_OBJECT_NAME`. -/
def nameAllowedChar (c : Char) : Bool :=
  (97 ≤ c.toNat && c.toNat ≤ 122) || (65 ≤ c.toNat && c.toNat ≤ 90) ||
    (48 ≤ c.toNat && c.toNat ≤ 57) || c == '_' || c == '-' || c == '.' ||
    c == ':'

/-- Python `RE_OBJECT_NAME.match(name)` for the compiled pattern of
src/cobbler/items/__init__.py line 19, which is the allowed-character class
starred then the dollar anchor, matched from the start of the string.  In
Python's default mode the dollar matches at the end of the string or just
before a trailing newline, so the match succeeds exactly when every character
is in the class, or the string ends in a newline preceded only by characters
of the class. -/
def RE_OBJECT_NAME_match (s : String) : Bool :=
  s.data.all nameAllowedChar ||
    (match s.data.getLast? with
     | some c => c == '\n' && s.data.dropLast.all nameAllowedChar
     | Option.none => false)

/-- The raw-field state of an `Item` (src/cobbler/items/item.py), one
component per underscore-prefixed attribute that `to_dict` serializes, in
`__dict__` insertion order.  `_conceptual_parent`, `_last_cached_mtime` and
`_cached_dict` are excluded by `to_dict` and carry no information for the
modelled operations, so they are not stored. -/
structure SItem where
  ctime : PyVal
  mtime : PyVal
  uid : PyVal
  name : PyVal
  comment : PyVal
  owners : PyVal
  parent : PyVal
  depth : PyVal
  children : PyVal
  is_subobject : PyVal
  kernel_options : PyVal
  kernel_options_post : PyVal
  autoinstall_meta : PyVal
  fetchable_files : PyVal
  boot_files : PyVal
  template_files : PyVal
  mgmt_classes : PyVal
  mgmt_parameters : PyVal
deriving Repr

/-- Tokens of a delimited string (whitespace or comma separated). -/
def splitTokens (s : String) : List String :=
  (((s.data.splitOnP (fun c => c == ' ' || c == ',')).map
    (fun l => String.mk l)).filter (fun t => !(t == "")))

/-- Modelled from the spec: `cobbler.utils.input_string_or_list` is not under
src/.  Per section 6 it returns the canonical in-memory list for a delimited
string or a native list, raising on other shapes; the inherit sentinel passes
through unchanged so a resolvable field can keep deferring. -/
def input_string_or_list (v : PyVal) : Except PyErr PyVal :=
  match v with
  | .str s =>
    if s == VALUE_INHERITED then .ok inheritSentinel
    else .ok (.list ((splitTokens s).map PyVal.str))
  | .list l => .ok (.list l)
  | _ => .error .typeError

/-- One `key=value` token (split at the first equals sign; a bare token maps
to a null value). -/
def parsePairTok (tok : String) : String × PyVal :=
  match tok.data.splitOn '=' with
  | [k] => (String.mk k, PyVal.none)
  | k :: rest => (String.mk k, .str (String.mk (List.intercalate ['='] rest)))
  | [] => (tok, PyVal.none)

/-- Modelled from the spec: `cobbler.utils.input_string_or_dict` is not under
src/.  Per section 6 it returns the canonical in-memory mapping for a
delimited `key=value` string or a native mapping, raising on other shapes;
the inherit sentinel passes through.  `allow_multiples` controls duplicate
keys in the real utility; the model keeps the last value either way. -/
def input_string_or_dict (v : PyVal) (allow_multiples : Bool) :
    Except PyErr PyVal :=
  match v with
  | .str s =>
    if s == VALUE_INHERITED then .ok inheritSentinel
    else
      .ok (.dict ((splitTokens s).foldl
        (fun acc tok => dictSet acc (parsePairTok tok).1 (parsePairTok tok).2)
        []))
  | .dict d => .ok (.dict d)
  | _ => .error .typeError

/-- Validation of the `ctime` setter: only a Python float is accepted
(a bool or int is not a float). -/
def ctimeCheck (v : PyVal) : Except PyErr PyVal :=
  match v with
  | .float _ => .ok v
  | _ => .error .typeError

/-- Validation of the `name` setter: a string matching `RE_OBJECT_NAME`;
a non-string raises TypeError, a failing string raises ValueError. -/
def nameCheck (v : PyVal) : Except PyErr PyVal :=
  match v with
  | .str s =>
    if RE_OBJECT_NAME_match s then .ok v else .error .valueError
  | _ => .error .typeError

/-- Validation of the `owners` setter: str or list, then converted. -/
def ownersCheck (v : PyVal) : Except PyErr PyVal :=
  match v with
  | .str _ => input_string_or_list v
  | .list _ => input_string_or_list v
  | _ => .error .typeError

/-- Validation of the `depth` setter: `isinstance(depth, int)`; a Python bool
is a subclass of int and passes. -/
def depthCheck (v : PyVal) : Except PyErr PyVal :=
  match v with
  | .int _ => .ok v
  | .bool _ => .ok v
  | _ => .error .typeError

/-- Validation of the `is_subobject` setter: bool only. -/
def isSubobjectCheck (v : PyVal) : Except PyErr PyVal :=
  match v with
  | .bool _ => .ok v
  | _ => .error .typeError

/-- Validation of the mapping-valued setters (`kernel_options` and friends):
conversion through `input_string_or_dict`, a failure re-raised as TypeError. -/
def dictFieldCheck (v : PyVal) (allow_multiples : Bool) : Except PyErr PyVal :=
  match input_string_or_dict v allow_multiples with
  | .ok w => .ok w
  | .error _ => .error .typeError

/-- Validation of the `mgmt_classes` setter: str or list, then converted. -/
def mgmtClassesCheck (v : PyVal) : Except PyErr PyVal :=
  match v with
  | .str _ => input_string_or_list v
  | .list _ => input_string_or_list v
  | _ => .error .typeError

/-- Validation of the `mgmt_parameters` setter: a dict is stored as is; the
inherit sentinel and the empty string are special-cased; any other string is
parsed by the external YAML loader `yaml`, whose result must be a mapping. -/
def mgmtParametersCheck (yaml : String → PyVal) (v : PyVal) :
    Except PyErr PyVal :=
  match v with
  | .dict d => .ok (.dict d)
  | .str s =>
    if s == VALUE_INHERITED then .ok inheritSentinel
    else if s == "" then .ok (.dict [])
    else
      match yaml s with
      | .dict d => .ok (.dict d)
      | _ => .error .typeError
  | _ => .error .typeError

/-- The `ctime` setter (src/cobbler/items/__init__.py lines 75-85): validate,
then assign; on failure the stored timestamp is untouched. -/
def SItem.setCtime (it : SItem) (v : PyVal) : SItem × Option PyErr :=
  match ctimeCheck v with
  | .ok w => ({it with ctime := w}, Option.none)
  | .error e => (it, some e)

/-- The `mtime` setter (src/cobbler/items/__init__.py lines 97-106). -/
def SItem.setMtime (it : SItem) (v : PyVal) : SItem × Option PyErr :=
  match ctimeCheck v with
  | .ok w => ({it with mtime := w}, Option.none)
  | .error e => (it, some e)

/-- The `name` setter (src/cobbler/items/__init__.py lines 119-132):
raise TypeError for a non-string, ValueError for a string the pattern
rejects; both raises happen before the assignment, so the stored name is
unchanged on failure. -/
def SItem.setName (it : SItem) (v : PyVal) : SItem × Option PyErr :=
  match nameCheck v with
  | .ok w => ({it with name := w}, Option.none)
  | .error e => (it, some e)

/-- Per-property setter dispatch used by `from_dict`'s `setattr`: validate
the value and return the field update to apply, or the exception raised.
The `parent` and `children` property setters have empty bodies in the source
and update nothing; `conceptual_parent`, `last_cached_mtime` and
`cached_dict` have backing fields but no property, so `setattr` creates a
plain non-underscore attribute that `to_dict` never reads, modelled as a
no-op. -/
def SItem.setAttrCheck (yaml : String → PyVal) (k : String) (v : PyVal) :
    Except PyErr (SItem → SItem) :=
  match k with
  | "ctime" => (ctimeCheck v).map (fun w it => {it with ctime := w})
  | "mtime" => (ctimeCheck v).map (fun w it => {it with mtime := w})
  | "uid" => .ok (fun it => {it with uid := v})
  | "name" => (nameCheck v).map (fun w it => {it with name := w})
  | "comment" => .ok (fun it => {it with comment := v})
  | "owners" => (ownersCheck v).map (fun w it => {it with owners := w})
  | "parent" => .ok (fun it => it)
  | "depth" => (depthCheck v).map (fun w it => {it with depth := w})
  | "children" => .ok (fun it => it)
  | "is_subobject" =>
    (isSubobjectCheck v).map (fun w it => {it with is_subobject := w})
  | "kernel_options" =>
    (dictFieldCheck v true).map (fun w it => {it with kernel_options := w})
  | "kernel_options_post" =>
    (dictFieldCheck v true).map
      (fun w it => {it with kernel_options_post := w})
  | "autoinstall_meta" =>
    (dictFieldCheck v true).map (fun w it => {it with autoinstall_meta := w})
  | "fetchable_files" =>
    (dictFieldCheck v false).map (fun w it => {it with fetchable_files := w})
  | "boot_files" =>
    (dictFieldCheck v false).map (fun w it => {it with boot_files := w})
  | "template_files" =>
    (dictFieldCheck v false).map (fun w it => {it with template_files := w})
  | "mgmt_classes" =>
    (mgmtClassesCheck v).map (fun w it => {it with mgmt_classes := w})
  | "mgmt_parameters" =>
    (mgmtParametersCheck yaml v).map
      (fun w it => {it with mgmt_parameters := w})
  | "conceptual_parent" => .ok (fun it => it)
  | "last_cached_mtime" => .ok (fun it => it)
  | "cached_dict" => .ok (fun it => it)
  | _ => .ok (fun it => it)

/-- `setattr(self, k, v)` with the partially mutated state observable. -/
def SItem.setAttr (yaml : String → PyVal) (it : SItem) (k : String)
    (v : PyVal) : SItem × Option PyErr :=
  match SItem.setAttrCheck yaml k v with
  | .ok f => (f it, Option.none)
  | .error e => (it, some e)

/-- The backing-field names of an `Item`:
`hasattr(self, underscore-prefixed key)` holds exactly for these. -/
def backingFields : List String :=
  ["ctime", "mtime", "uid", "name", "comment", "owners", "parent", "depth",
   "children", "conceptual_parent", "is_subobject", "kernel_options",
   "kernel_options_post", "autoinstall_meta", "fetchable_files", "boot_files",
   "template_files", "last_cached_mtime", "cached_dict", "mgmt_classes",
   "mgmt_parameters"]

/-- `Item.to_dict(resolved=False)` (src/cobbler/items/item.py lines 506-555):
every serialized backing field under its bare lower-cased name, in `__dict__`
order, the cached/transient fields excluded; deep copies are identity in the
model.  Since `autoinstall_meta` is present, the legacy alias `ks_meta` is
appended; no `autoinstall` field exists on a plain `Item`, so no `kickstart`
alias appears. -/
def SItem.to_dict (it : SItem) : List (String × PyVal) :=
  [("ctime", it.ctime), ("mtime", it.mtime), ("uid", it.uid),
   ("name", it.name), ("comment", it.comment), ("owners", it.owners),
   ("parent", it.parent), ("depth", it.depth), ("children", it.children),
   ("is_subobject", it.is_subobject),
   ("kernel_options", it.kernel_options),
   ("kernel_options_post", it.kernel_options_post),
   ("autoinstall_meta", it.autoinstall_meta),
   ("fetchable_files", it.fetchable_files), ("boot_files", it.boot_files),
   ("template_files", it.template_files), ("mgmt_classes", it.mgmt_classes),
   ("mgmt_parameters", it.mgmt_parameters),
   ("ks_meta", it.autoinstall_meta)]

/-- The keys `Item.serialize` strips from `to_dict`'s result. -/
def keysToDrop : List String :=
  ["kickstart", "ks_meta", "remote_grub_kernel", "remote_grub_initrd"]

/-- `Item.serialize` (src/cobbler/items/item.py lines 557-573). -/
def SItem.serialize (it : SItem) : List (String × PyVal) :=
  (it.to_dict).filter (fun kv => !(keysToDrop.contains kv.1))

/-- The loop of `Item.from_dict` (src/cobbler/items/item.py lines 480-504):
walk the input pairs; a key whose lower-cased form has a backing field has
its setter invoked (a setter raise aborts with the earlier keys applied) and
is removed from the residue copy; after the loop a non-empty residue raises
KeyError, the applied keys staying applied. -/
def SItem.from_dictGo (yaml : String → PyVal) :
    SItem → List (String × PyVal) → List String → SItem × Option PyErr
  | it, [], residue =>
    (it, if residue.isEmpty then Option.none else some .keyError)
  | it, (k, v) :: rest, residue =>
    if backingFields.contains (pyLower k) then
      match SItem.setAttrCheck yaml (pyLower k) v with
      | .ok f => SItem.from_dictGo yaml (f it) rest (residue.erase k)
      | .error e => (it, some e)
    else SItem.from_dictGo yaml it rest residue

/-- `Item.from_dict`. -/
def SItem.from_dict (yaml : String → PyVal) (it : SItem)
    (d : List (String × PyVal)) : SItem × Option PyErr :=
  SItem.from_dictGo yaml it d (d.map Prod.fst)

/-- `Item.deserialize` (src/cobbler/items/item.py lines 575-581), a proxy for
`from_dict`. -/
def SItem.deserialize (yaml : String → PyVal) (it : SItem)
    (d : List (String × PyVal)) : SItem × Option PyErr :=
  SItem.from_dict yaml it d

/-- A freshly constructed `Item` (the `__init__` chain of `BaseItem`,
`InheritableItem` and `Item`); the uid, drawn from `uuid4`, is a
parameter. -/
def freshItem (uid : String) : SItem :=
  { ctime := .float 0, mtime := .float 0, uid := .str uid, name := .str "",
    comment := .str "", owners := inheritSentinel, parent := .str "",
    depth := .int 0, children := .list [], is_subobject := .bool false,
    kernel_options := .dict [], kernel_options_post := .dict [],
    autoinstall_meta := .dict [], fetchable_files := .dict [],
    boot_files := .dict [], template_files := .dict [],
    mgmt_classes := .list [], mgmt_parameters := .dict [] }

/-- Splits a bracket-class body at its closing bracket, or fails when no
closing bracket exists in the rest of the pattern. -/
def splitAtCloseBr : List Char → Option (List Char × List Char)
  | [] => Option.none
  | ']' :: t => some ([], t)
  | c :: t =>
    match splitAtCloseBr t with
    | some (a, b) => some (c :: a, b)
    | Option.none => Option.none

/-- Parses a bracket class as `fnmatch.translate` does: an optional leading
bang negates, a closing bracket appearing first is a literal member, and a
class with no closing bracket makes the opening bracket a literal character
(signalled by returning nothing). -/
def parseCharClass (p : List Char) : Option (Bool × List Char × List Char) :=
  let negAndBody :=
    match p with
    | '!' :: t => (true, t)
    | _ => (false, p)
  match negAndBody.2 with
  | ']' :: t =>
    match splitAtCloseBr t with
    | some (content, rest) => some (negAndBody.1, ']' :: content, rest)
    | Option.none => Option.none
  | body =>
    match splitAtCloseBr body with
    | some (content, rest) => some (negAndBody.1, content, rest)
    | Option.none => Option.none

/-- Membership of a character in a bracket-class body: a dash between two
characters is a range, elsewhere a literal. -/
def classHas : List Char → Char → Bool
  | a :: '-' :: b :: rest, c =>
    (a.toNat ≤ c.toNat && c.toNat ≤ b.toNat) || classHas rest c
  | a :: rest, c => a == c || classHas rest c
  | [], _ => false

/-- Glob matching of a whole string against a whole pattern (star, question
mark and bracket classes), the semantics of the regex `fnmatch.translate`
builds.  `fuel` dominates the recursion depth: every step either shortens
the pattern or shortens the string, so any fuel above the sum of the two
lengths is enough and the wrapper below always supplies that. -/
def globMatch : Nat → List Char → List Char → Bool
  | 0, _, _ => false
  | Nat.succ fuel, p, s =>
    match p with
    | [] => s.isEmpty
    | '*' :: ps =>
      globMatch fuel ps s ||
        (match s with
         | [] => false
         | _ :: s2 => globMatch fuel ('*' :: ps) s2)
    | '?' :: ps =>
      (match s with
       | [] => false
       | _ :: s2 => globMatch fuel ps s2)
    | '[' :: ps =>
      (match parseCharClass ps with
       | some (neg, members, rest) =>
         (match s with
          | [] => false
          | c :: s2 => (neg != classHas members c) && globMatch fuel rest s2)
       | Option.none =>
         (match s with
          | '[' :: s2 => globMatch fuel ps s2
          | _ => false))
    | c :: ps =>
      (match s with
       | c2 :: s2 => c == c2 && globMatch fuel ps s2
       | [] => false)

/-- `fnmatch.fnmatch(name, pat)` as `__find_compare` calls it: both
arguments are already lower-cased by the caller, so case normalization is
the identity here. -/
def fnmatchcase (nameStr pat : String) : Bool :=
  globMatch ((pat.length + 1) * (nameStr.length + 1) + 1) pat.data
    nameStr.data

/-- `Item.__find_compare` (src/cobbler/items/item.py lines 35-89).  A string
object is compared case-insensitively to the search string, exactly unless
the search string holds a wildcard character, by glob otherwise.  A list
object must contain every token of the search string; a dict object must
hold every parsed key with an equal value; a bool object is compared to the
truthiness of the search string.  Anything else raises; a non-string search
against a string object raises because the source calls `.lower()` on it. -/
def Item.__find_compare (from_search from_obj : PyVal) : Except PyErr Bool :=
  match from_obj with
  | .str o =>
    match from_search with
    | .str fs =>
      let from_obj_lower := pyLower o
      let from_search_lower := pyLower fs
      if !(pyContains from_search_lower '?') &&
          !(pyContains from_search_lower '*') &&
          !(pyContains from_search_lower '[') then
        .ok (from_obj_lower == from_search_lower)
      else .ok (fnmatchcase from_obj_lower from_search_lower)
    | _ => .error .attributeError
  | _ =>
    match from_search with
    | .str fs =>
      match from_obj with
      | .list l =>
        (match input_string_or_list (.str fs) with
         | .ok (.list toks) =>
           .ok (toks.all (fun e => l.any (fun x => pyEq x e)))
         | .ok (.str s2) =>
           .ok ((s2.data.map (fun c => PyVal.str (String.singleton c))).all
             (fun e => l.any (fun x => pyEq x e)))
         | .ok _ => .error .typeError
         | .error e => .error e)
      | .dict d =>
        (match input_string_or_dict (.str fs) true with
         | .ok (.dict pd) =>
           .ok (pd.all (fun kv =>
             match d.lookup kv.1 with
             | some w => pyEq kv.2 w
             | Option.none => false))
         | .ok _ => .error .attributeError
         | .error e => .error e)
      | .bool b =>
        .ok ((["true", "1", "y", "yes"].contains (pyLower fs)) == b)
      | _ => .error .typeError
    | _ => .error .typeError

/-- The interface-level attribute names special-cased by
`find_match_single_key` when the serialized form has an `interfaces`
sub-record. -/
def interfaceKeys : List String :=
  ["cnames", "connected_mode", "if_gateway", "ipv6_default_gateway",
   "ipv6_mtu", "ipv6_prefix", "ipv6_secondaries", "ipv6_static_routes",
   "management", "mtu", "static", "mac_address", "ip_address", "ipv6_address",
   "netmask", "virt_bridge", "dhcp_tag", "dns_name", "static_routes",
   "interface_type", "interface_master", "bonding_opts", "bridge_opts",
   "interface"]

/-- The per-interface loop of `find_match_single_key`: succeed on the first
nested record whose name equals the criterion value or whose `key` attribute
compares true against it (the source hands the stored attribute as the
search side of `__find_compare`). -/
def interfacesScan (value : Option String) (key : String) :
    List (String × PyVal) → Except PyErr Bool
  | [] => .ok false
  | (nameStr, interface) :: rest =>
    if value == some nameStr then .ok true
    else
      match value with
      | some v =>
        (match interface with
         | .dict ifd =>
           (match ifd.lookup key with
            | some iv => do
              let r ← Item.__find_compare iv (.str v)
              if r then .ok true else interfacesScan value key rest
            | Option.none => interfacesScan value key rest)
         | _ => interfacesScan value key rest)
      | Option.none => interfacesScan value key rest

/-- The shared tail of `find_match_single_key` (src/cobbler/items/item.py
lines 433-435): a null criterion value matches unconditionally, otherwise
the stored value is indexed — raising KeyError when the key is absent — and
compared. -/
def Item.find_match_single_key_tail (data : List (String × PyVal))
    (key : String) (value : Option String) : Except PyErr Bool :=
  match value with
  | Option.none => .ok true
  | some v =>
    match data.lookup key with
    | some dv => Item.__find_compare (.str v) dv
    | Option.none => .error .keyError

/-- `Item.find_match_single_key` (src/cobbler/items/item.py lines 376-435):
the nested-interface special case, then the absent-key matrix (strict
matching fails; lenient matching falls through to the shared tail), then the
shared tail. -/
def Item.find_match_single_key (data : List (String × PyVal)) (key : String)
    (value : Option String) (no_errors : Bool) : Except PyErr Bool := do
  let special :=
    (data.lookup "interfaces").isSome && interfaceKeys.contains key
  let key_found_already := special
  let early ←
    if special then
      match data.lookup "interfaces" with
      | some (.dict ifs) => interfacesScan value key ifs
      | some _ => .error .attributeError
      | Option.none => pure false
    else pure false
  if early then pure true
  else
    match data.lookup key with
    | Option.none =>
      if !key_found_already then
        (if !no_errors then pure false
         else Item.find_match_single_key_tail data key value)
      else
        (if value.isSome then pure false
         else Item.find_match_single_key_tail data key value)
    | some _ => Item.find_match_single_key_tail data key value

/-- One criterion inside `find_match`'s loop: a value starting with a tilde
negates the match of the remainder of the value. -/
def Item.criterionEval (data : List (String × PyVal))
    (kv : String × Option String) (no_errors : Bool) : Except PyErr Bool :=
  match kv.2 with
  | some v =>
    if pyStartsWith v "~" then do
      let r ← Item.find_match_single_key data kv.1 (some (v.drop 1)) no_errors
      pure (!r)
    else Item.find_match_single_key data kv.1 (some v) no_errors
  | Option.none => Item.find_match_single_key data kv.1 Option.none no_errors

/-- The loop of `Item.find_match`: every criterion must match; the first
false criterion ends the search. -/
def Item.find_matchGo (data : List (String × PyVal)) :
    List (String × Option String) → Bool → Except PyErr Bool
  | [], _ => .ok true
  | kv :: rest, no_errors => do
    let res ← Item.criterionEval data kv no_errors
    if res then Item.find_matchGo data rest no_errors else .ok false

/-- `Item.find_match` (src/cobbler/items/item.py lines 355-374): serialize
the item with `to_dict` and require every criterion to match. -/
def Item.find_match (it : SItem) (kwargs : List (String × Option String))
    (no_errors : Bool) : Except PyErr Bool :=
  Item.find_matchGo (it.to_dict) kwargs no_errors

/-- The tree of the descendants example: a root with two children, the first
of which has one child of its own. -/
def exampleTree : List (String × List String) :=
  [("root", ["c1", "c2"]), ("c1", ["g1"]), ("c2", []), ("g1", [])]

/-- An item named webserver01. -/
def webItem : SItem := {freshItem "uid-web" with name := .str "webserver01"}

/-- An item named dbserver01. -/
def dbItem : SItem := {freshItem "uid-db" with name := .str "dbserver01"}

/-- Is the value a Python float. -/
def isFloat : PyVal → Bool
  | .float _ => true
  | _ => false

/-- Is the value a Python bool. -/
def isBoolVal : PyVal → Bool
  | .bool _ => true
  | _ => false

/-- Is the value an int in Python's sense (a bool is a subclass of int). -/
def intOrBool : PyVal → Bool
  | .int _ => true
  | .bool _ => true
  | _ => false

/-- A canonical value of a list-shaped resolvable field: a native list or
the inherit sentinel, both fixed points of `input_string_or_list`. -/
def listOrInherit : PyVal → Bool
  | .list _ => true
  | .str s => s == VALUE_INHERITED
  | _ => false

/-- A canonical value of a mapping-shaped resolvable field: a native dict or
the inherit sentinel, both fixed points of `input_string_or_dict`. -/
def dictOrInherit : PyVal → Bool
  | .dict _ => true
  | .str s => s == VALUE_INHERITED
  | _ => false

/-- A name the setter would have accepted. -/
def isMatchedName : PyVal → Bool
  | .str s => RE_OBJECT_NAME_match s
  | _ => false

/-- An item state reachable through the setters of a plain `Item`: each
field holds a fixed point of its own setter pipeline, and the fields whose
setters are no-ops (`parent`, `children`) still hold their constructed
values.  Such an item does not rely on the fields `serialize` strips. -/
def Canonical (x : SItem) : Bool :=
  isFloat x.ctime && isFloat x.mtime && isMatchedName x.name &&
    listOrInherit x.owners && pyEq x.parent (.str "") && intOrBool x.depth &&
    pyEq x.children (.list []) && isBoolVal x.is_subobject &&
    dictOrInherit x.kernel_options && dictOrInherit x.kernel_options_post &&
    dictOrInherit x.autoinstall_meta && dictOrInherit x.fetchable_files &&
    dictOrInherit x.boot_files && dictOrInherit x.template_files &&
    listOrInherit x.mgmt_classes && dictOrInherit x.mgmt_parameters

/-- The combined effect of the setters `from_dict` invokes: fold the input,
applying the setter of every key whose lower-cased form has a backing field
and skipping the rest. -/
def applyBacked (yaml : String → PyVal) :
    SItem → List (String × PyVal) → SItem
  | it, [] => it
  | it, (k, v) :: rest =>
    if backingFields.contains (pyLower k) then
      match SItem.setAttrCheck yaml (pyLower k) v with
      | .ok f => applyBacked yaml (f it) rest
      | .error _ => applyBacked yaml it rest
    else applyBacked yaml it rest

/-- A trivial external YAML loader for concrete instances (the modelled
claims never reach the YAML branch). -/
def yaml0 : String → PyVal := fun _ => PyVal.none

/-- A concrete `from_dict` input holding one known key and one unknown
key. -/
def exampleFromDictInput : List (String × PyVal) :=
  [("comment", .str "hi"), ("bogus", .int 1)]

/-- Did a setter dispatch succeed (no exception). -/
def exceptOk : Except PyErr (SItem → SItem) → Bool
  | .ok _ => true
  | .error _ => false

theorem resolveFieldName_idem (p : String) :
    resolveFieldName (resolveFieldName p) = resolveFieldName p := by
  unfold resolveFieldName
  by_cases h : pyStartsWith p "proxy_url_"
  · simp [h]
  · simp [h]

/-- C1: for an item whose own stored value for a scalar resolvable property
is the INHERIT sentinel, with no parent supplying the property and settings
exposing neither the property name nor its default variant, `_resolve`
returns the sentinel to the caller instead of raising: the source constructs
the unresolved-inheritance `AttributeError` but never raises it, and control
falls through to `return attribute_value`.  This contradicts the claim and
the function's own error message; shown on `BaseItem._resolve`, on
`InheritableItem._resolve` without a parent, and on `InheritableItem._resolve`
with a parent that does not expose the property. -/
theorem resolve_unresolved_chain_returns_sentinel :
    BaseItem._resolve [("status", inheritSentinel)] ⟨[]⟩ "status" =
        .ok inheritSentinel ∧
      InheritableItem._resolve
        ⟨[("status", inheritSentinel)], Option.none, ⟨[]⟩⟩ "status" =
        .ok inheritSentinel ∧
      InheritableItem._resolve
        ⟨[("status", inheritSentinel)], some ⟨[]⟩, ⟨[]⟩⟩ "status" =
        .ok inheritSentinel :=
  ⟨rfl, rfl, rfl⟩

/-- C2: when the item's own stored value for a scalar resolvable property is
concrete (not the INHERIT sentinel), `InheritableItem._resolve` and
`BaseItem._resolve` both return exactly that stored value, whatever the
parent and the settings hold. -/
theorem resolve_scalar_own_value_wins (it : RItem) (p : String) (v : PyVal)
    (hv : it.fields.lookup (resolveFieldName p) = some v)
    (hconc : pyEq v inheritSentinel = false) :
    InheritableItem._resolve it p = .ok v ∧
    BaseItem._resolve it.fields it.settings p = .ok v := by
  constructor
  · simp [InheritableItem._resolve, BaseItem._resolve, resolveFieldName_idem,
      hv, hconc]
  · simp [BaseItem._resolve, hv, hconc]

/-- Witness for C2: an item whose own `owners` is a concrete list resolves
to it although both its parent and the settings hold different values. -/
theorem resolve_scalar_own_value_wins_witness :
    InheritableItem._resolve
      ⟨[("owners", .list [.str "alice"])],
       some ⟨[("owners", .list [.str "bob"])]⟩,
       ⟨[("default_ownership", .list [.str "admin"])]⟩⟩ "owners" =
      .ok (.list [.str "alice"]) :=
  (resolve_scalar_own_value_wins
    ⟨[("owners", .list [.str "alice"])],
     some ⟨[("owners", .list [.str "bob"])]⟩,
     ⟨[("default_ownership", .list [.str "admin"])]⟩⟩ "owners"
    (.list [.str "alice"]) rfl (by decide)).1

/-- C4: on a tree with two children of which one has one child of its own
(all lookups succeeding), the descendants property returns the empty list,
not the three expected items: the source extends the results with each kid's
recursive descendants but never appends the kid itself. -/
theorem descendants_example_tree_empty :
    InheritableItem.descendants exampleTree 5 ["c1", "c2"] = .ok [] := rfl

/-- C5: the name setter accepts exactly the strings matched by
`RE_OBJECT_NAME`, raising TypeError on a non-string and ValueError on a
rejected string, the stored name unchanged in both failure cases; the
rejected example input is included. -/
theorem name_setter_validation (it : SItem) (v : PyVal) :
    (∀ s, v = .str s → RE_OBJECT_NAME_match s = true →
      SItem.setName it v = ({it with name := .str s}, Option.none)) ∧
    (∀ s, v = .str s → RE_OBJECT_NAME_match s = false →
      SItem.setName it v = (it, some PyErr.valueError)) ∧
    ((∀ s, ¬(v = .str s)) →
      SItem.setName it v = (it, some PyErr.typeError)) ∧
    SItem.setName it (.str "bad name!") = (it, some PyErr.valueError) := by
  refine ⟨?_, ?_, ?_, ?_⟩
  · rintro s rfl hm
    simp [SItem.setName, nameCheck, hm]
  · rintro s rfl hm
    simp [SItem.setName, nameCheck, hm]
  · intro h
    cases v <;> try rfl
    exact absurd rfl (h _)
  · have hbad : RE_OBJECT_NAME_match "bad name!" = false := by decide
    simp [SItem.setName, nameCheck, hbad]

/-- C10: the ctime and mtime setters accept a value exactly when it is a
Python float; every other input, integers included, raises TypeError with
the stored timestamp unchanged. -/
theorem timestamp_setters_float_only (it : SItem) (v : PyVal) :
    (∀ f, v = .float f →
      SItem.setCtime it v = ({it with ctime := v}, Option.none) ∧
      SItem.setMtime it v = ({it with mtime := v}, Option.none)) ∧
    (isFloat v = false →
      SItem.setCtime it v = (it, some PyErr.typeError) ∧
      SItem.setMtime it v = (it, some PyErr.typeError)) ∧
    SItem.setCtime it (.int 3) = (it, some PyErr.typeError) ∧
    SItem.setMtime it (.int 3) = (it, some PyErr.typeError) := by
  refine ⟨?_, ?_, rfl, rfl⟩
  · rintro f rfl
    exact ⟨rfl, rfl⟩
  · intro h
    cases v <;>
      simp_all [isFloat, SItem.setCtime, SItem.setMtime, ctimeCheck]

theorem dictOrInherit_shape (v : PyVal) (h : dictOrInherit v = true) :
    (∃ dd, v = .dict dd) ∨ v = inheritSentinel := by
  cases v <;> simp_all [dictOrInherit, inheritSentinel]

/-- C3: `InheritableItem._resolve_dict` computes the mapping-resolution
algorithm the spec words (merge the parent's resolved mapping if a parent
exists and exposes the property; otherwise — the parent absent, or present
but not exposing the property — merge the settings' mapping if present;
overlay the own stored mapping only when it is not the sentinel;
annihilate), with `BaseItem._resolve_dict` the same algorithm without a
parent; in particular, an own mapping binding b to the removal marker over a
parent resolved mapping of a to 1 and b to 2 resolves to a to 1. -/
theorem resolve_mapping_merge_semantics (p : String) (own : PyVal)
    (fields : List (String × PyVal)) (st : Settings)
    (hown : fields.lookup p = some own)
    (howns : dictOrInherit own = true) :
    (∀ (pv : ParentView) (pd : List (String × PyVal)),
        pv.props.lookup p = some (.dict pd) →
        InheritableItem._resolve_dict ⟨fields, some pv, st⟩ p =
          .ok (specMappingResolution own (some pd) Option.none)) ∧
    (∀ (pv : ParentView) (sd : List (String × PyVal)),
        pv.props.lookup p = Option.none →
        st.attrs.lookup p = some (.dict sd) →
        InheritableItem._resolve_dict ⟨fields, some pv, st⟩ p =
          .ok (specMappingResolution own Option.none (some sd))) ∧
    (∀ pv : ParentView,
        pv.props.lookup p = Option.none →
        st.attrs.lookup p = Option.none →
        InheritableItem._resolve_dict ⟨fields, some pv, st⟩ p =
          .ok (specMappingResolution own Option.none Option.none)) ∧
    (∀ sd : List (String × PyVal),
        st.attrs.lookup p = some (.dict sd) →
        InheritableItem._resolve_dict ⟨fields, Option.none, st⟩ p =
          .ok (specMappingResolution own Option.none (some sd))) ∧
    (st.attrs.lookup p = Option.none →
        InheritableItem._resolve_dict ⟨fields, Option.none, st⟩ p =
          .ok (specMappingResolution own Option.none Option.none)) ∧
    BaseItem._resolve_dict fields st p =
      InheritableItem._resolve_dict ⟨fields, Option.none, st⟩ p ∧
    InheritableItem._resolve_dict
        ⟨[("kernel_options", .dict [("b", removalMarker)])],
         some ⟨[("kernel_options", .dict [("a", .int 1), ("b", .int 2)])]⟩,
         ⟨[]⟩⟩ "kernel_options" = .ok [("a", .int 1)] := by
  have hsh := dictOrInherit_shape own howns
  refine ⟨?_, ?_, ?_, ?_, ?_, ?_, ?_⟩
  · intro pv pd hpv
    rcases hsh with ⟨dd, rfl⟩ | rfl <;>
      simp [InheritableItem._resolve_dict, specMappingResolution, hown, hpv,
        asDict, pyEq, inheritSentinel, Except.pure] <;> try rfl
  · intro pv sd hpv hsd
    rcases hsh with ⟨dd, rfl⟩ | rfl <;>
      simp [InheritableItem._resolve_dict, specMappingResolution, hown, hpv,
        hsd, Settings.getattr, asDict, pyEq, inheritSentinel,
        Except.pure] <;> try rfl
  · intro pv hpv hnone
    rcases hsh with ⟨dd, rfl⟩ | rfl <;>
      simp [InheritableItem._resolve_dict, specMappingResolution, hown, hpv,
        hnone, Settings.getattr, asDict, pyEq, inheritSentinel,
        Except.pure] <;> try rfl
  · intro sd hsd
    rcases hsh with ⟨dd, rfl⟩ | rfl <;>
      simp [InheritableItem._resolve_dict, specMappingResolution, hown, hsd,
        Settings.getattr, asDict, pyEq, inheritSentinel, Except.pure] <;>
      try rfl
  · intro hnone
    rcases hsh with ⟨dd, rfl⟩ | rfl <;>
      simp [InheritableItem._resolve_dict, specMappingResolution, hown,
        hnone, Settings.getattr, asDict, pyEq, inheritSentinel,
        Except.pure] <;> try rfl
  · rcases hsh with ⟨dd, rfl⟩ | rfl <;>
      simp [InheritableItem._resolve_dict, BaseItem._resolve_dict, hown,
        Settings.getattr, asDict, pyEq, inheritSentinel, Except.pure] <;>
      try rfl
  · rfl

/-- Witness for C3: a concrete item whose own mapping overlays a concrete
parent mapping, evaluated against the spec-worded algorithm. -/
theorem resolve_mapping_merge_semantics_witness :
    InheritableItem._resolve_dict
      ⟨[("kernel_options", .dict [("x", .str "1")])],
       some ⟨[("kernel_options", .dict [("a", .int 1)])]⟩, ⟨[]⟩⟩
      "kernel_options" =
      .ok (specMappingResolution (.dict [("x", .str "1")])
        (some [("a", .int 1)]) Option.none) :=
  (resolve_mapping_merge_semantics "kernel_options"
    (.dict [("x", .str "1")])
    [("kernel_options", .dict [("x", .str "1")])] ⟨[]⟩ rfl (by decide)).1
    ⟨[("kernel_options", .dict [("a", .int 1)])]⟩ [("a", .int 1)] rfl

/-- C9 counterexample: for a criterion key absent from the serialized form
with lenient matching requested and a non-null expected value,
`find_match_single_key` raises KeyError (indexing the absent key) instead of
returning a failed match, so the claim's lenient clause is false as
stated. -/
theorem find_match_single_key_lenient_raises :
    Item.find_match_single_key [] "foo" (some "bar") true =
      .error PyErr.keyError := rfl

/-- C9 amended: for a criterion key absent from the serialized form and not
handled by the nested-interface special case, strict matching returns false
whatever the expected value; lenient matching returns true for a null
expected value, and raises KeyError (does not merely fail) for a non-null
one. -/
theorem find_match_single_key_absent_key (data : List (String × PyVal))
    (key : String) (value : Option String)
    (habs : data.lookup key = Option.none)
    (hni : (data.lookup "interfaces").isSome = false ∨
      interfaceKeys.contains key = false) :
    Item.find_match_single_key data key value false = .ok false ∧
    Item.find_match_single_key data key Option.none true = .ok true ∧
    (∀ s, value = some s →
      Item.find_match_single_key data key value true =
        .error PyErr.keyError) := by
  have hsp : ((data.lookup "interfaces").isSome &&
      interfaceKeys.contains key) = false := by
    rcases hni with h | h
    · rw [h, Bool.false_and]
    · rw [h, Bool.and_false]
  refine ⟨?_, ?_, ?_⟩
  · simp only [Item.find_match_single_key]
    rw [hsp]
    simp [habs, Item.find_match_single_key_tail, Except.pure, Bind.bind,
      Except.bind]
    rfl
  · simp only [Item.find_match_single_key]
    rw [hsp]
    simp [habs, Item.find_match_single_key_tail, Except.pure, Bind.bind,
      Except.bind]
    rfl
  · rintro s rfl
    simp only [Item.find_match_single_key]
    rw [hsp]
    simp [habs, Item.find_match_single_key_tail, Except.pure, Bind.bind,
      Except.bind]
    rfl

/-- Witness for C9 as amended, at an empty serialized form and the key
foo. -/
theorem find_match_single_key_absent_key_witness :
    Item.find_match_single_key [] "foo" (some "bar") false = .ok false ∧
    Item.find_match_single_key [] "foo" Option.none true = .ok true := by
  have h := find_match_single_key_absent_key [] "foo" (some "bar") rfl
    (Or.inl rfl)
  exact ⟨h.1, h.2.1⟩

theorem find_matchGo_all (data : List (String × PyVal))
    (kwargs : List (String × Option String)) (ne : Bool) :
    Item.find_matchGo data kwargs ne = .ok true ↔
      ∀ kv ∈ kwargs, Item.criterionEval data kv ne = .ok true := by
  induction kwargs with
  | nil => simp [Item.find_matchGo]
  | cons kv rest ih =>
    simp only [Item.find_matchGo, List.mem_cons, forall_eq_or_imp]
    cases he : Item.criterionEval data kv ne with
    | error e => simp [he, Bind.bind, Except.bind]
    | ok b =>
      cases b
      · simp [he, Bind.bind, Except.bind]
      · simp [he, Bind.bind, Except.bind, ih]

/-- C8: `find_match` succeeds exactly when every criterion matches; a tilde
prefix negates the single-key match of the remainder of the value; a
string-valued field compares case-insensitively, exactly unless the
criterion holds a wildcard character and by glob when it does; and the
concrete web and db examples behave as claimed, for both the plain and the
negated pattern. -/
theorem find_match_semantics :
    (∀ (it : SItem) (kwargs : List (String × Option String)) (ne : Bool),
      Item.find_match it kwargs ne = .ok true ↔
        ∀ kv ∈ kwargs, Item.criterionEval (it.to_dict) kv ne = .ok true) ∧
    (∀ (data : List (String × PyVal)) (key : String) (v : String)
        (ne : Bool), pyStartsWith v "~" = true →
      Item.criterionEval data (key, some v) ne =
        (Item.find_match_single_key data key (some (v.drop 1)) ne).map
          (fun r => !r)) ∧
    (∀ fs o : String,
      Item.__find_compare (.str fs) (.str o) =
        .ok
          (if !(pyContains (pyLower fs) '?') &&
              !(pyContains (pyLower fs) '*') &&
              !(pyContains (pyLower fs) '[') then
            pyLower o == pyLower fs
          else fnmatchcase (pyLower o) (pyLower fs))) ∧
    Item.find_match webItem [("name", some "web*")] false = .ok true ∧
    Item.find_match dbItem [("name", some "web*")] false = .ok false ∧
    Item.find_match dbItem [("name", some "~web*")] false = .ok true ∧
    Item.find_match webItem [("name", some "~web*")] false = .ok false := by
  refine ⟨?_, ?_, ?_, rfl, rfl, rfl, rfl⟩
  · intro it kwargs ne
    exact find_matchGo_all (it.to_dict) kwargs ne
  · intro data key v ne hneg
    simp only [Item.criterionEval, hneg, if_true]
    cases h : Item.find_match_single_key data key (some (v.drop 1)) ne <;>
      simp [h, Bind.bind, Except.bind, Except.map, Except.pure] <;> rfl
  · intro fs o
    cases hw : (!(pyContains (pyLower fs) '?') &&
        !(pyContains (pyLower fs) '*') && !(pyContains (pyLower fs) '[')) <;>
      simp [Item.__find_compare, hw]

theorem from_dictGo_invariant (yaml : String → PyVal) :
    ∀ (rest : List (String × PyVal)) (it : SItem) (skipped : List String),
      (∀ kv ∈ rest,
        exceptOk (SItem.setAttrCheck yaml (pyLower kv.1) kv.2) = true) →
      (∀ k ∈ skipped, backingFields.contains (pyLower k) = false) →
      SItem.from_dictGo yaml it rest (skipped ++ rest.map Prod.fst) =
        (applyBacked yaml it rest,
         if skipped.isEmpty &&
             rest.all (fun kv => backingFields.contains (pyLower kv.1)) then
           Option.none
         else some PyErr.keyError) := by
  intro rest
  induction rest with
  | nil =>
    intro it skipped _ _
    simp [SItem.from_dictGo, applyBacked]
  | cons hd tl ih =>
    intro it skipped hok hsk
    obtain ⟨k, v⟩ := hd
    have hhead := hok (k, v) (List.mem_cons_self _ _)
    have htl : ∀ kv ∈ tl,
        exceptOk (SItem.setAttrCheck yaml (pyLower kv.1) kv.2) = true :=
      fun kv hm => hok kv (List.mem_cons_of_mem _ hm)
    by_cases hc : backingFields.contains (pyLower k) = true
    · obtain ⟨f, hf⟩ : ∃ f, SItem.setAttrCheck yaml (pyLower k) v = .ok f := by
        cases hset : SItem.setAttrCheck yaml (pyLower k) v with
        | ok f => exact ⟨f, rfl⟩
        | error e =>
          rw [hset] at hhead
          simp [exceptOk] at hhead
      have hkn : k ∉ skipped := by
        intro hm
        have h2 := hsk k hm
        rw [hc] at h2
        simp at h2
      have hstep : SItem.from_dictGo yaml it ((k, v) :: tl)
          (skipped ++ ((k, v) :: tl).map Prod.fst) =
          SItem.from_dictGo yaml (f it) tl
            ((skipped ++ ((k, v) :: tl).map Prod.fst).erase k) := by
        simp only [SItem.from_dictGo]
        rw [hc, hf]
        simp
      rw [hstep]
      have her : (skipped ++ ((k, v) :: tl).map Prod.fst).erase k =
          skipped ++ tl.map Prod.fst := by
        rw [List.map_cons, List.erase_append_right _ hkn]
        simp
      rw [her, ih (f it) skipped htl hsk]
      have happ : applyBacked yaml it ((k, v) :: tl) =
          applyBacked yaml (f it) tl := by
        simp only [applyBacked]
        rw [hc, hf]
        simp
      have hall : ((k, v) :: tl).all
          (fun kv => backingFields.contains (pyLower kv.1)) =
          tl.all (fun kv => backingFields.contains (pyLower kv.1)) := by
        rw [List.all_cons]
        rw [show backingFields.contains (pyLower (k, v).1) = true from hc]
        rw [Bool.true_and]
      rw [happ, hall]
    · have hc' : backingFields.contains (pyLower k) = false := by
        simpa using hc
      have hstep : SItem.from_dictGo yaml it ((k, v) :: tl)
          (skipped ++ ((k, v) :: tl).map Prod.fst) =
          SItem.from_dictGo yaml it tl
            (skipped ++ ((k, v) :: tl).map Prod.fst) := by
        simp only [SItem.from_dictGo]
        rw [hc']
        simp
      rw [hstep]
      have hres : skipped ++ ((k, v) :: tl).map Prod.fst =
          (skipped ++ [k]) ++ tl.map Prod.fst := by
        simp
      rw [hres]
      have hsk' : ∀ k2 ∈ skipped ++ [k],
          backingFields.contains (pyLower k2) = false := by
        intro k2 hm
        rcases List.mem_append.mp hm with h | h
        · exact hsk k2 h
        · simp at h
          subst h
          exact hc'
      rw [ih it (skipped ++ [k]) htl hsk']
      have happ : applyBacked yaml it ((k, v) :: tl) =
          applyBacked yaml it tl := by
        simp only [applyBacked]
        rw [hc']
        simp
      have hall : ((k, v) :: tl).all
          (fun kv => backingFields.contains (pyLower kv.1)) = false := by
        rw [List.all_cons]
        rw [show backingFields.contains (pyLower (k, v).1) = false from hc']
        rw [Bool.false_and]
      rw [happ, hall]
      simp

/-- C6: `from_dict` applies, in order, the setter of every key whose
lower-cased form names a backing field (their combined effect is
`applyBacked`), and — provided those setters accept their values — returns
no error exactly when every key was consumed, raising the unknown-field
KeyError otherwise with the valid keys still applied (partial
application). -/
theorem from_dict_strict_schema (yaml : String → PyVal) (it : SItem)
    (d : List (String × PyVal))
    (hok : ∀ kv ∈ d,
      exceptOk (SItem.setAttrCheck yaml (pyLower kv.1) kv.2) = true) :
    SItem.from_dict yaml it d =
      (applyBacked yaml it d,
       if d.all (fun kv => backingFields.contains (pyLower kv.1)) then
         Option.none
       else some PyErr.keyError) := by
  have h := from_dictGo_invariant yaml d it [] hok (by intro k hk; cases hk)
  simpa [SItem.from_dict] using h

/-- Witness for C6: a call holding the known key comment and the unknown
key bogus raises KeyError with the comment still applied. -/
theorem from_dict_strict_schema_witness :
    SItem.from_dict yaml0 (freshItem "w6") exampleFromDictInput =
      (applyBacked yaml0 (freshItem "w6") exampleFromDictInput,
       some PyErr.keyError) := by
  have h := from_dict_strict_schema yaml0 (freshItem "w6")
    exampleFromDictInput (by decide)
  rw [h]
  rfl

theorem isFloat_shape (v : PyVal) (h : isFloat v = true) :
    ∃ f, v = .float f := by
  cases v <;> simp_all [isFloat]

theorem isMatchedName_shape (v : PyVal) (h : isMatchedName v = true) :
    ∃ s, v = .str s ∧ RE_OBJECT_NAME_match s = true := by
  cases v <;> simp_all [isMatchedName]

theorem pyEq_str_shape (v : PyVal) (t : String)
    (h : pyEq v (.str t) = true) : v = .str t := by
  cases v <;> simp_all [pyEq]

theorem pyEq_list_nil_shape (v : PyVal) (h : pyEq v (.list []) = true) :
    v = .list [] := by
  cases v <;> simp_all [pyEq]
  rename_i l
  cases l with
  | nil => rfl
  | cons a as => simp_all [pyEqList]

theorem setAttrCheck_ctime (yaml : String → PyVal) (v : PyVal)
    (h : isFloat v = true) :
    SItem.setAttrCheck yaml "ctime" v =
      .ok (fun it => {it with ctime := v}) := by
  cases v <;> first | rfl | simp_all [isFloat]

theorem setAttrCheck_mtime (yaml : String → PyVal) (v : PyVal)
    (h : isFloat v = true) :
    SItem.setAttrCheck yaml "mtime" v =
      .ok (fun it => {it with mtime := v}) := by
  cases v <;> first | rfl | simp_all [isFloat]

theorem setAttrCheck_uid (yaml : String → PyVal) (v : PyVal) :
    SItem.setAttrCheck yaml "uid" v = .ok (fun it => {it with uid := v}) :=
  rfl

theorem setAttrCheck_name (yaml : String → PyVal) (s : String)
    (hs : RE_OBJECT_NAME_match s = true) :
    SItem.setAttrCheck yaml "name" (.str s) =
      .ok (fun it => {it with name := .str s}) := by
  simp [SItem.setAttrCheck, nameCheck, hs, Except.map]

theorem setAttrCheck_comment (yaml : String → PyVal) (v : PyVal) :
    SItem.setAttrCheck yaml "comment" v =
      .ok (fun it => {it with comment := v}) :=
  rfl

theorem setAttrCheck_owners (yaml : String → PyVal) (v : PyVal)
    (h : listOrInherit v = true) :
    SItem.setAttrCheck yaml "owners" v =
      .ok (fun it => {it with owners := v}) := by
  cases v with
  | list l => rfl
  | str s =>
    have hv : s = VALUE_INHERITED := by simpa [listOrInherit] using h
    subst hv
    rfl
  | int i => simp [listOrInherit] at h
  | float f => simp [listOrInherit] at h
  | bool b => simp [listOrInherit] at h
  | none => simp [listOrInherit] at h
  | dict d => simp [listOrInherit] at h

theorem setAttrCheck_parent (yaml : String → PyVal) (v : PyVal) :
    SItem.setAttrCheck yaml "parent" v = .ok (fun it => it) :=
  rfl

theorem setAttrCheck_depth (yaml : String → PyVal) (v : PyVal)
    (h : intOrBool v = true) :
    SItem.setAttrCheck yaml "depth" v =
      .ok (fun it => {it with depth := v}) := by
  cases v <;> first | rfl | simp_all [intOrBool]

theorem setAttrCheck_children (yaml : String → PyVal) (v : PyVal) :
    SItem.setAttrCheck yaml "children" v = .ok (fun it => it) :=
  rfl

theorem setAttrCheck_is_subobject (yaml : String → PyVal) (v : PyVal)
    (h : isBoolVal v = true) :
    SItem.setAttrCheck yaml "is_subobject" v =
      .ok (fun it => {it with is_subobject := v}) := by
  cases v <;> first | rfl | simp_all [isBoolVal]

theorem setAttrCheck_kernel_options (yaml : String → PyVal) (v : PyVal)
    (h : dictOrInherit v = true) :
    SItem.setAttrCheck yaml "kernel_options" v =
      .ok (fun it => {it with kernel_options := v}) := by
  cases v with
  | dict d => rfl
  | str s =>
    have hv : s = VALUE_INHERITED := by simpa [dictOrInherit] using h
    subst hv
    rfl
  | int i => simp [dictOrInherit] at h
  | float f => simp [dictOrInherit] at h
  | bool b => simp [dictOrInherit] at h
  | none => simp [dictOrInherit] at h
  | list l => simp [dictOrInherit] at h

theorem setAttrCheck_kernel_options_post (yaml : String → PyVal) (v : PyVal)
    (h : dictOrInherit v = true) :
    SItem.setAttrCheck yaml "kernel_options_post" v =
      .ok (fun it => {it with kernel_options_post := v}) := by
  cases v with
  | dict d => rfl
  | str s =>
    have hv : s = VALUE_INHERITED := by simpa [dictOrInherit] using h
    subst hv
    rfl
  | int i => simp [dictOrInherit] at h
  | float f => simp [dictOrInherit] at h
  | bool b => simp [dictOrInherit] at h
  | none => simp [dictOrInherit] at h
  | list l => simp [dictOrInherit] at h

theorem setAttrCheck_autoinstall_meta (yaml : String → PyVal) (v : PyVal)
    (h : dictOrInherit v = true) :
    SItem.setAttrCheck yaml "autoinstall_meta" v =
      .ok (fun it => {it with autoinstall_meta := v}) := by
  cases v with
  | dict d => rfl
  | str s =>
    have hv : s = VALUE_INHERITED := by simpa [dictOrInherit] using h
    subst hv
    rfl
  | int i => simp [dictOrInherit] at h
  | float f => simp [dictOrInherit] at h
  | bool b => simp [dictOrInherit] at h
  | none => simp [dictOrInherit] at h
  | list l => simp [dictOrInherit] at h

theorem setAttrCheck_fetchable_files (yaml : String → PyVal) (v : PyVal)
    (h : dictOrInherit v = true) :
    SItem.setAttrCheck yaml "fetchable_files" v =
      .ok (fun it => {it with fetchable_files := v}) := by
  cases v with
  | dict d => rfl
  | str s =>
    have hv : s = VALUE_INHERITED := by simpa [dictOrInherit] using h
    subst hv
    rfl
  | int i => simp [dictOrInherit] at h
  | float f => simp [dictOrInherit] at h
  | bool b => simp [dictOrInherit] at h
  | none => simp [dictOrInherit] at h
  | list l => simp [dictOrInherit] at h

theorem setAttrCheck_boot_files (yaml : String → PyVal) (v : PyVal)
    (h : dictOrInherit v = true) :
    SItem.setAttrCheck yaml "boot_files" v =
      .ok (fun it => {it with boot_files := v}) := by
  cases v with
  | dict d => rfl
  | str s =>
    have hv : s = VALUE_INHERITED := by simpa [dictOrInherit] using h
    subst hv
    rfl
  | int i => simp [dictOrInherit] at h
  | float f => simp [dictOrInherit] at h
  | bool b => simp [dictOrInherit] at h
  | none => simp [dictOrInherit] at h
  | list l => simp [dictOrInherit] at h

theorem setAttrCheck_template_files (yaml : String → PyVal) (v : PyVal)
    (h : dictOrInherit v = true) :
    SItem.setAttrCheck yaml "template_files" v =
      .ok (fun it => {it with template_files := v}) := by
  cases v with
  | dict d => rfl
  | str s =>
    have hv : s = VALUE_INHERITED := by simpa [dictOrInherit] using h
    subst hv
    rfl
  | int i => simp [dictOrInherit] at h
  | float f => simp [dictOrInherit] at h
  | bool b => simp [dictOrInherit] at h
  | none => simp [dictOrInherit] at h
  | list l => simp [dictOrInherit] at h

theorem setAttrCheck_mgmt_classes (yaml : String → PyVal) (v : PyVal)
    (h : listOrInherit v = true) :
    SItem.setAttrCheck yaml "mgmt_classes" v =
      .ok (fun it => {it with mgmt_classes := v}) := by
  cases v with
  | list l => rfl
  | str s =>
    have hv : s = VALUE_INHERITED := by simpa [listOrInherit] using h
    subst hv
    rfl
  | int i => simp [listOrInherit] at h
  | float f => simp [listOrInherit] at h
  | bool b => simp [listOrInherit] at h
  | none => simp [listOrInherit] at h
  | dict d => simp [listOrInherit] at h

theorem setAttrCheck_mgmt_parameters (yaml : String → PyVal) (v : PyVal)
    (h : dictOrInherit v = true) :
    SItem.setAttrCheck yaml "mgmt_parameters" v =
      .ok (fun it => {it with mgmt_parameters := v}) := by
  cases v with
  | dict d => rfl
  | str s =>
    have hv : s = VALUE_INHERITED := by simpa [dictOrInherit] using h
    subst hv
    rfl
  | int i => simp [dictOrInherit] at h
  | float f => simp [dictOrInherit] at h
  | bool b => simp [dictOrInherit] at h
  | none => simp [dictOrInherit] at h
  | list l => simp [dictOrInherit] at h

theorem from_dictGo_step (yaml : String → PyVal) (it : SItem) (k : String)
    (v : PyVal) (rest : List (String × PyVal)) (residue : List String)
    (f : SItem → SItem)
    (hk : backingFields.contains (pyLower k) = true)
    (hset : SItem.setAttrCheck yaml (pyLower k) v = .ok f) :
    SItem.from_dictGo yaml it ((k, v) :: rest) residue =
      SItem.from_dictGo yaml (f it) rest (residue.erase k) := by
  simp only [SItem.from_dictGo]
  rw [hk, hset]
  simp

/-- C7: deserializing the serialized form of a canonical item into a fresh
item reproduces the item exactly — in particular the reconstructed item's
raw dictionary (`to_dict` unresolved) equals the original's.  Canonical
states are exactly those reachable through the setters, which rely on none
of the fields `serialize` strips. -/
theorem serialize_roundtrip (uid0 : String) (yaml : String → PyVal)
    (x : SItem) (hx : Canonical x = true) :
    SItem.deserialize yaml (freshItem uid0) (SItem.serialize x) =
      (x, Option.none) ∧
    (SItem.deserialize yaml (freshItem uid0)
        (SItem.serialize x)).1.to_dict = x.to_dict := by
  obtain ⟨ct, mt, uidv, nm, cm, ow, pa, dp, ch, sub, ko, kop, am, ff, bf,
    tf, mc, mp⟩ := x
  simp only [Canonical, Bool.and_eq_true, and_assoc] at hx
  obtain ⟨h1, h2, h3, h4, h5, h6, h7, h8, h9, h10, h11, h12, h13, h14, h15,
    h16⟩ := hx
  obtain ⟨f1, rfl⟩ := isFloat_shape _ h1
  obtain ⟨f2, rfl⟩ := isFloat_shape _ h2
  obtain ⟨s, rfl, hs⟩ := isMatchedName_shape _ h3
  have hpa := pyEq_str_shape _ _ h5
  subst hpa
  have hch := pyEq_list_nil_shape _ h7
  subst hch
  have hmain : SItem.deserialize yaml (freshItem uid0)
      (SItem.serialize ⟨.float f1, .float f2, uidv, .str s, cm, ow,
        .str "", dp, .list [], sub, ko, kop, am, ff, bf, tf, mc, mp⟩) =
      (⟨.float f1, .float f2, uidv, .str s, cm, ow, .str "", dp, .list [],
        sub, ko, kop, am, ff, bf, tf, mc, mp⟩, Option.none) := by
    have h0 : SItem.deserialize yaml (freshItem uid0)
        (SItem.serialize ⟨.float f1, .float f2, uidv, .str s, cm, ow,
          .str "", dp, .list [], sub, ko, kop, am, ff, bf, tf, mc, mp⟩) =
        SItem.from_dictGo yaml (freshItem uid0)
          [("ctime", .float f1), ("mtime", .float f2), ("uid", uidv),
           ("name", .str s), ("comment", cm), ("owners", ow),
           ("parent", .str ""), ("depth", dp), ("children", .list []),
           ("is_subobject", sub), ("kernel_options", ko),
           ("kernel_options_post", kop), ("autoinstall_meta", am),
           ("fetchable_files", ff), ("boot_files", bf),
           ("template_files", tf), ("mgmt_classes", mc),
           ("mgmt_parameters", mp)]
          ["ctime", "mtime", "uid", "name", "comment", "owners", "parent",
           "depth", "children", "is_subobject", "kernel_options",
           "kernel_options_post", "autoinstall_meta", "fetchable_files",
           "boot_files", "template_files", "mgmt_classes",
           "mgmt_parameters"] := rfl
    rw [h0]
    rw [from_dictGo_step yaml _ "ctime" _ _ _ _ (by decide)
      (setAttrCheck_ctime yaml (.float f1) rfl)]
    rw [from_dictGo_step yaml _ "mtime" _ _ _ _ (by decide)
      (setAttrCheck_mtime yaml (.float f2) rfl)]
    rw [from_dictGo_step yaml _ "uid" _ _ _ _ (by decide)
      (setAttrCheck_uid yaml uidv)]
    rw [from_dictGo_step yaml _ "name" _ _ _ _ (by decide)
      (setAttrCheck_name yaml s hs)]
    rw [from_dictGo_step yaml _ "comment" _ _ _ _ (by decide)
      (setAttrCheck_comment yaml cm)]
    rw [from_dictGo_step yaml _ "owners" _ _ _ _ (by decide)
      (setAttrCheck_owners yaml ow h4)]
    rw [from_dictGo_step yaml _ "parent" _ _ _ _ (by decide)
      (setAttrCheck_parent yaml (.str ""))]
    rw [from_dictGo_step yaml _ "depth" _ _ _ _ (by decide)
      (setAttrCheck_depth yaml dp h6)]
    rw [from_dictGo_step yaml _ "children" _ _ _ _ (by decide)
      (setAttrCheck_children yaml (.list []))]
    rw [from_dictGo_step yaml _ "is_subobject" _ _ _ _ (by decide)
      (setAttrCheck_is_subobject yaml sub h8)]
    rw [from_dictGo_step yaml _ "kernel_options" _ _ _ _ (by decide)
      (setAttrCheck_kernel_options yaml ko h9)]
    rw [from_dictGo_step yaml _ "kernel_options_post" _ _ _ _ (by decide)
      (setAttrCheck_kernel_options_post yaml kop h10)]
    rw [from_dictGo_step yaml _ "autoinstall_meta" _ _ _ _ (by decide)
      (setAttrCheck_autoinstall_meta yaml am h11)]
    rw [from_dictGo_step yaml _ "fetchable_files" _ _ _ _ (by decide)
      (setAttrCheck_fetchable_files yaml ff h12)]
    rw [from_dictGo_step yaml _ "boot_files" _ _ _ _ (by decide)
      (setAttrCheck_boot_files yaml bf h13)]
    rw [from_dictGo_step yaml _ "template_files" _ _ _ _ (by decide)
      (setAttrCheck_template_files yaml tf h14)]
    rw [from_dictGo_step yaml _ "mgmt_classes" _ _ _ _ (by decide)
      (setAttrCheck_mgmt_classes yaml mc h15)]
    rw [from_dictGo_step yaml _ "mgmt_parameters" _ _ _ _ (by decide)
      (setAttrCheck_mgmt_parameters yaml mp h16)]
    rfl
  exact ⟨hmain, by rw [hmain]⟩

/-- Witness for C7: the round trip at the concrete webserver01 item. -/
theorem serialize_roundtrip_witness :
    SItem.deserialize yaml0 (freshItem "fresh") (SItem.serialize webItem) =
      (webItem, Option.none) ∧
    (SItem.deserialize yaml0 (freshItem "fresh")
        (SItem.serialize webItem)).1.to_dict = webItem.to_dict :=
  serialize_roundtrip "fresh" yaml0 webItem (by decide)
